import Mathlib

/-!
Verification development for the GRVT builder-examples signing scripts
(`authorize.py` and `grvt_create_order_api.py`).

The pure core of the two scripts is embedded shallowly:
decimal-string parsing and fixed-point scaling, the EIP-712 payload
builders (builder authorization and order-with-builder-fee), the
time-in-force bridging, and the order signing driver.  Network I/O,
JSON file loading and the ECDSA primitive itself are outside the
embedding; the signer is abstracted as a function parameter.
-/

/-! ## Python numeric semantics -/

/-- An exact fraction `num / den` (not necessarily reduced).  Python's
`Decimal` values and binary64 values are both fractions of this shape;
keeping them unreduced makes every operation a plain integer computation.
All fractions built below have a positive denominator. -/
structure Frac where
  num : ℤ
  den : ℕ
deriving DecidableEq

/-- The rational value of a fraction (specification-level view). -/
def fracVal (f : Frac) : ℚ := (f.num : ℚ) / (f.den : ℚ)

/-- Multiply a fraction by a natural number (exact). -/
def fracMulNat (f : Frac) (k : ℕ) : Frac := ⟨f.num * k, f.den⟩

/-- Python `int()` applied to an exact numeric value: truncation toward
zero (`int(Decimal(...))` / `int(float(...))` both truncate). -/
def pyInt (f : Frac) : ℤ := f.num.tdiv f.den

/-- Fold a digit string into a natural number (most significant first). -/
def digitsToNat (l : List Char) : ℕ :=
  l.foldl (fun a c => a * 10 + (c.toNat - 48)) 0

/-- Split a character list at the first dot character, returning the part
before it and (when a dot occurs) the part after it. -/
def splitDot : List Char → List Char × Option (List Char)
  | [] => ([], none)
  | c :: cs =>
    if c = '.' then ([], some cs)
    else
      let p := splitDot cs
      (c :: p.1, p.2)

/-- Parse an optional leading sign, returning whether it was a minus and
the remaining characters. -/
def parseSign : List Char → Bool × List Char
  | '-' :: cs => (true, cs)
  | '+' :: cs => (false, cs)
  | cs => (false, cs)

/-- Split a character list at the first `e`/`E`, returning the part
before it and (when present) the part after it. -/
def splitExp : List Char → List Char × Option (List Char)
  | [] => ([], none)
  | c :: cs =>
    if c = 'e' ∨ c = 'E' then ([], some cs)
    else
      let p := splitExp cs
      (c :: p.1, p.2)

/-- Parse a decimal literal into an exact fraction, as Python `Decimal(s)`
(and `float(s)`) do on the strings the scripts feed them: optional
surrounding whitespace, an optional sign, `digits[.digits]` with at least
one digit, and an optional signed exponent part.  Construction is exact:
the `decimal` context never rounds in the constructor.  Special values
(NaN, Infinity) and digit-group underscores are not modelled. -/
def parseDecimal (s : String) : Option Frac :=
  let t := ((s.data.dropWhile Char.isWhitespace).reverse.dropWhile Char.isWhitespace).reverse
  let sg := parseSign t
  let pe := splitExp sg.2
  let pexp : Option ℤ :=
    match pe.2 with
    | none => some 0
    | some es =>
      let se := parseSign es
      if se.2.all Char.isDigit && !se.2.isEmpty then
        some (if se.1 then -(digitsToNat se.2 : ℤ) else (digitsToNat se.2 : ℤ))
      else none
  match pexp with
  | none => none
  | some exp =>
    let p := splitDot pe.1
    let ip := p.1
    let fr := p.2.getD []
    if (ip ++ fr).all Char.isDigit && !(ip ++ fr).isEmpty then
      let c : ℤ := digitsToNat ip * 10 ^ fr.length + digitsToNat fr
      let coeff := if sg.1 then -c else c
      let e := exp - (fr.length : ℤ)
      if 0 ≤ e then some ⟨coeff * 10 ^ e.toNat, 1⟩ else some ⟨coeff, 10 ^ (-e).toNat⟩
    else none

/-! ### IEEE-754 double model (for `authorize.py`'s `float` path)

`authorize.py` computes `int(float(max_futures_fee_rate) * 10_000)`:
the decimal string is first rounded to the nearest binary64 value, the
product with 10 000 is again rounded to the nearest binary64 value, and
the result is truncated.  We model binary64 rounding exactly on the
normal range (all quantities in the scripts are far from the subnormal
and overflow thresholds). -/

/-- Fuel-driven floor of the base-2 logarithm of a natural number. -/
def nlog2 : ℕ → ℕ → ℕ
  | 0, _ => 0
  | f + 1, n => if 2 ≤ n then nlog2 f (n / 2) + 1 else 0

/-- The fraction `2 ^ e` for an integer exponent. -/
def fracPow2 (e : ℤ) : Frac :=
  if 0 ≤ e then ⟨2 ^ e.toNat, 1⟩ else ⟨1, 2 ^ (-e).toNat⟩

/-- Multiply a fraction by `2 ^ k` (exact). -/
def fracMulPow2 (f : Frac) (k : ℤ) : Frac :=
  if 0 ≤ k then ⟨f.num * 2 ^ k.toNat, f.den⟩ else ⟨f.num, f.den * 2 ^ (-k).toNat⟩

/-- `a ≤ b` on fractions with positive denominators, by cross
multiplication. -/
def fracLe (a b : Frac) : Prop := a.num * b.den ≤ b.num * a.den

instance (a b : Frac) : Decidable (fracLe a b) := by
  unfold fracLe
  infer_instance

/-- Round a fraction with positive denominator to the nearest integer,
ties to even (IEEE round-to-nearest-even on integers). -/
def roundHalfEven (f : Frac) : ℤ :=
  let fl := f.num.fdiv f.den
  let r2 := 2 * (f.num - fl * f.den)
  if r2 < (f.den : ℤ) then fl
  else if (f.den : ℤ) < r2 then fl + 1
  else if fl % 2 = 0 then fl else fl + 1

/-- Exponent `e` with `2 ^ e ≤ |f| < 2 ^ (e + 1)` for a nonzero
fraction. -/
def floorLog2 (f : Frac) : ℤ :=
  let n := f.num.natAbs
  let d := f.den
  let e0 : ℤ := (nlog2 n n : ℤ) - (nlog2 d d : ℤ)
  if fracLe (fracPow2 e0) ⟨f.num.natAbs, f.den⟩ then e0 else e0 - 1

/-- Round a fraction to the nearest IEEE binary64 value (normal range,
round-to-nearest ties-to-even), returned as an exact fraction. -/
def roundDouble (f : Frac) : Frac :=
  if f.num = 0 then ⟨0, 1⟩
  else
    let e := floorLog2 f
    fracMulPow2 ⟨roundHalfEven (fracMulPow2 f (52 - e)), 1⟩ (e - 52)

/-- Python `float(s)` on a decimal literal: exact parse then binary64
rounding. -/
def pyFloat (s : String) : Option Frac :=
  (parseDecimal s).map roundDouble

/-! ## Scaling operations as the scripts perform them -/

/-- Price multiplier from `grvt_create_order_api.py`
(`PRICE_MULTIPLIER = 1_000_000_000`). -/
def PRICE_MULTIPLIER : ℕ := 1000000000

/-- Fuel-driven count of decimal digits of a natural number
(one digit for zero). -/
def ndigits : ℕ → ℕ → ℕ
  | 0, _ => 1
  | f + 1, n => if n < 10 then 1 else ndigits f (n / 10) + 1

/-- Number of decimal digits of a natural number. -/
def numDigits (n : ℕ) : ℕ := ndigits n n

/-- Python `decimal` default-context rounding applied to an arithmetic
result: the exact value is kept when it needs at most 28 significant
digits (`getcontext().prec` defaults to 28), otherwise the excess digits
are dropped by round-half-even.  The scripts never change the context,
so every `Decimal` product they compute is rounded this way.  Rounding is
applied to the value; this agrees with coefficient rounding because
digits beyond the coefficient are trailing zeros, on which rounding is
exact. -/
def ctxRound (f : Frac) : Frac :=
  let nd := numDigits f.num.natAbs
  if nd ≤ 28 then f
  else ⟨roundHalfEven ⟨f.num, 10 ^ (nd - 28)⟩ * 10 ^ (nd - 28), f.den⟩

/-- The order-path scaling `int(Decimal(d) * Decimal(k))`: exact decimal
multiplication, rounded to the default context's 28 significant digits,
then truncation toward zero. -/
def scaleDec (d : String) (k : ℕ) : Option ℤ :=
  (parseDecimal d).map (fun f => pyInt (ctxRound (fracMulNat f k)))

/-- `authorize.py`'s fee-rate conversion `int(float(s) * 10_000)`:
binary64 parse, binary64 multiply by 10 000, truncation. -/
def authFeeToUint32 (s : String) : Option ℤ :=
  (pyFloat s).map (fun x => pyInt (roundDouble (fracMulNat x 10000)))

/-! ## `authorize.py`: environments and the builder-authorization payload -/

/-- Scalar values inside one leg dictionary (integers, booleans, strings). -/
inductive LegVal where
  | i (n : ℤ)
  | b (x : Bool)
  | s (x : String)
deriving DecidableEq

/-- Typed-data message or domain values (integers, booleans, strings, and
the array of leg field dictionaries for `OrderLeg[]`). -/
inductive Val where
  | i (n : ℤ)
  | b (x : Bool)
  | s (x : String)
  | arr (xs : List (List (String × LegVal)))
deriving DecidableEq

/-- One `{"name": ..., "type": ...}` entry of an EIP-712 type schema. -/
structure TypedField where
  name : String
  type : String
deriving DecidableEq

/-- The full typed-data payload shape returned by `build_eip712_payload`:
dictionaries are modelled as association lists in insertion order. -/
structure Eip712Payload where
  domain : List (String × Val)
  message : List (String × Val)
  primaryType : String
  types : List (String × List TypedField)
deriving DecidableEq

/-- `EnvConfig` dataclass from `authorize.py`. -/
structure EnvConfig where
  name : String
  edge_base : String
  trades_base : String
  chain_id : ℤ
deriving DecidableEq

/-- The `ENVS` table from `authorize.py`. -/
def ENVS : List (String × EnvConfig) :=
  [("dev", ⟨"dev", "https://edge.dev.gravitymarkets.io", "https://trades.dev.gravitymarkets.io", 327⟩),
   ("staging", ⟨"staging", "https://edge.staging.gravitymarkets.io", "https://trades.staging.gravitymarkets.io", 327⟩),
   ("testnet", ⟨"testnet", "https://edge.testnet.grvt.io", "https://trades.testnet.grvt.io", 326⟩),
   ("prod", ⟨"prod", "https://edge.grvt.io", "https://trades.grvt.io", 325⟩)]

/-- `_ensure_0x`: strip whitespace, add a `0x` prefix when missing,
lowercase (`authorize.py` variant), computed on the character list. -/
def ensure_0x (s : String) : String :=
  let t := ((s.data.dropWhile Char.isWhitespace).reverse.dropWhile Char.isWhitespace).reverse
  let u := if t.take 2 = ['0', 'x'] then t else '0' :: 'x' :: t
  String.mk (u.map Char.toLower)

/-- `build_eip712_payload` from `authorize.py`: the builder-authorization
typed-data payload, with every dictionary in its source insertion order. -/
def build_eip712_payload (main_account_id builder_account_id signer_address permissions : String)
    (max_future_fee_rate_uint32 max_spot_fee_rate_uint32 nonce_uint32 expiration_unix_ns
      domain_chain_id : ℤ) : Eip712Payload :=
  { domain := [("chainId", .i domain_chain_id), ("name", .s "GRVT Exchange"), ("version", .s "0")],
    message :=
      [("accountID", .s main_account_id),
       ("signer", .s signer_address),
       ("permissions", .s permissions),
       ("builderAccountID", .s builder_account_id),
       ("maxFutureFeeRate", .i max_future_fee_rate_uint32),
       ("maxSpotFeeRate", .i max_spot_fee_rate_uint32),
       ("nonce", .i nonce_uint32),
       ("expiration", .i expiration_unix_ns)],
    primaryType := "AddAccountSignerWithBuilder",
    types :=
      [("EIP712Domain",
        [⟨"name", "string"⟩, ⟨"version", "string"⟩, ⟨"chainId", "uint256"⟩]),
       ("AddAccountSignerWithBuilder",
        [⟨"accountID", "address"⟩, ⟨"signer", "address"⟩, ⟨"permissions", "string"⟩,
         ⟨"builderAccountID", "address"⟩, ⟨"maxFutureFeeRate", "uint32"⟩,
         ⟨"maxSpotFeeRate", "uint32"⟩, ⟨"nonce", "uint32"⟩, ⟨"expiration", "int64"⟩])] }

/-- The typed-payload construction step of `authorize_builder`: fee-rate
strings are converted through `int(float(s) * 10_000)` and the payload is
assembled with `build_eip712_payload` against the environment's chain id.
`signer_addr` is the address derived from the builder API signer key (an
external library call), taken here as an input. -/
def authorize_builder_typed (env : EnvConfig) (main_account_id builder_account_id : String)
    (signer_addr : String) (permissions : String)
    (max_futures_fee_rate max_spot_fee_rate : String)
    (nonce : ℤ) (expiration_ns : ℤ) : Option Eip712Payload :=
  match authFeeToUint32 max_futures_fee_rate, authFeeToUint32 max_spot_fee_rate with
  | some mf, some ms =>
    some (build_eip712_payload (ensure_0x main_account_id) (ensure_0x builder_account_id)
      (ensure_0x signer_addr) permissions mf ms nonce expiration_ns env.chain_id)
  | _, _ => none

/-! ## `grvt_create_order_api.py`: order message construction and signing -/

/-- `GrvtEnv` enumeration. -/
inductive GrvtEnv where
  | DEV
  | STAGING
  | TESTNET
  | PROD
deriving DecidableEq

/-- `CHAIN_IDS` table. -/
def CHAIN_IDS : GrvtEnv → ℤ
  | .DEV => 327
  | .STAGING => 327
  | .TESTNET => 326
  | .PROD => 325

/-- `TimeInForce` human-facing enumeration. -/
inductive TimeInForce where
  | GOOD_TILL_TIME
  | ALL_OR_NONE
  | IMMEDIATE_OR_CANCEL
  | FILL_OR_KILL
deriving DecidableEq

/-- `TimeInForce(value)` string-to-enum conversion; `none` models the
`ValueError` Python raises for a value outside the enumeration. -/
def TimeInForce.ofString : String → Option TimeInForce
  | "GOOD_TILL_TIME" => some .GOOD_TILL_TIME
  | "ALL_OR_NONE" => some .ALL_OR_NONE
  | "IMMEDIATE_OR_CANCEL" => some .IMMEDIATE_OR_CANCEL
  | "FILL_OR_KILL" => some .FILL_OR_KILL
  | _ => none

/-- `SignTimeInForce` numeric enumeration for signing. -/
inductive SignTimeInForce where
  | GOOD_TILL_TIME
  | ALL_OR_NONE
  | IMMEDIATE_OR_CANCEL
  | FILL_OR_KILL
deriving DecidableEq

/-- `.value` of a `SignTimeInForce` member. -/
def SignTimeInForce.value : SignTimeInForce → ℤ
  | .GOOD_TILL_TIME => 1
  | .ALL_OR_NONE => 2
  | .IMMEDIATE_OR_CANCEL => 3
  | .FILL_OR_KILL => 4

/-- `TIME_IN_FORCE_TO_SIGN_TIME_IN_FORCE` mapping. -/
def TIME_IN_FORCE_TO_SIGN_TIME_IN_FORCE : TimeInForce → SignTimeInForce
  | .GOOD_TILL_TIME => .GOOD_TILL_TIME
  | .ALL_OR_NONE => .ALL_OR_NONE
  | .IMMEDIATE_OR_CANCEL => .IMMEDIATE_OR_CANCEL
  | .FILL_OR_KILL => .FILL_OR_KILL

/-- `EIP712_ORDER_MESSAGE_TYPE` schema constant. -/
def EIP712_ORDER_MESSAGE_TYPE : List (String × List TypedField) :=
  [("OrderWithBuilderFee",
    [⟨"subAccountID", "uint64"⟩, ⟨"isMarket", "bool"⟩, ⟨"timeInForce", "uint8"⟩,
     ⟨"postOnly", "bool"⟩, ⟨"reduceOnly", "bool"⟩, ⟨"legs", "OrderLeg[]"⟩,
     ⟨"builder", "address"⟩, ⟨"builderFee", "uint32"⟩, ⟨"nonce", "uint32"⟩,
     ⟨"expiration", "int64"⟩]),
   ("OrderLeg",
    [⟨"assetID", "uint256"⟩, ⟨"contractSize", "uint64"⟩, ⟨"limitPrice", "uint64"⟩,
     ⟨"isBuyingContract", "bool"⟩])]

/-- `get_eip712_domain_data`. -/
def get_eip712_domain_data (env : GrvtEnv) : List (String × Val) :=
  [("name", .s "GRVT Exchange"), ("version", .s "0"), ("chainId", .i (CHAIN_IDS env))]

/-- One instrument directory entry (`instrument_hash`, `base_decimals`). -/
structure Instrument where
  instrument_hash : String
  base_decimals : ℕ
deriving DecidableEq

/-- One order leg as supplied by the caller (decimal quantities as strings). -/
structure OrderLeg where
  instrument : String
  size : String
  limit_price : String
  is_buying_asset : Bool
deriving DecidableEq

/-- The order's signature sub-record (keys `r`, `s`, `v`, `expiration`,
`nonce`, `signer`). -/
structure SignatureRec where
  r : String
  s : String
  v : ℤ
  expiration : ℤ
  nonce : ℤ
  signer : String
deriving DecidableEq

/-- A caller-supplied order; `Option` fields model keys the source reads
with `order.get(key, default)`. -/
structure Order where
  sub_account_id : ℤ
  legs : List OrderLeg
  signature : SignatureRec
  time_in_force : Option String
  is_market : Option Bool
  post_only : Option Bool
  reduce_only : Option Bool
  builder : Option String
  builder_fee : Option String
deriving DecidableEq

/-- Error kinds raised by the order assembly (Python exceptions:
`ValueError` for an unknown instrument or an invalid `TimeInForce` string,
`decimal.InvalidOperation` for an unparsable decimal). -/
inductive Err where
  | unknownInstrument (instrument : String)
  | invalidDecimal (value : String)
  | malformedPayload (value : String)
deriving DecidableEq

/-- The per-leg body of `build_order_message_data`'s loop: instrument
lookup, then size and price scaling, then the leg dictionary in source
field order.  The 28-digit context rounding of `Decimal` products
(see `ctxRound`) is omitted here: none of the properties stated about
this function depend on it. -/
def buildLeg (instruments : List (String × Instrument)) (leg : OrderLeg) :
    Except Err (List (String × LegVal)) :=
  match instruments.lookup leg.instrument with
  | none => .error (.unknownInstrument leg.instrument)
  | some instrument =>
    match parseDecimal leg.size with
    | none => .error (.invalidDecimal leg.size)
    | some size =>
      match parseDecimal leg.limit_price with
      | none => .error (.invalidDecimal leg.limit_price)
      | some price =>
        .ok [("assetID", .s instrument.instrument_hash),
             ("contractSize", .i (pyInt (fracMulNat size (10 ^ instrument.base_decimals)))),
             ("limitPrice", .i (pyInt (fracMulNat price PRICE_MULTIPLIER))),
             ("isBuyingContract", .b leg.is_buying_asset)]

/-- The leg loop of `build_order_message_data`: build each leg dictionary
in caller order, stopping at the first failure (`legs.append(...)` in the
source). -/
def buildLegs (instruments : List (String × Instrument)) :
    List OrderLeg → Except Err (List (List (String × LegVal)))
  | [] => .ok []
  | leg :: rest => do
    let l ← buildLeg instruments leg
    let ls ← buildLegs instruments rest
    .ok (l :: ls)

/-- `build_order_message_data`: legs first, then the time-in-force bridge,
then the builder fee, then the message dictionary in source insertion
order.  As in `buildLeg`, the `Decimal` context rounding is omitted from
the builder-fee product; the properties stated below do not depend on
it. -/
def build_order_message_data (order : Order) (instruments : List (String × Instrument)) :
    Except Err (List (String × Val)) := do
  let legs ← buildLegs instruments order.legs
  let tifStr := order.time_in_force.getD "GOOD_TILL_TIME"
  match TimeInForce.ofString tifStr with
  | none => .error (.malformedPayload tifStr)
  | some tif =>
    let sign_tif := TIME_IN_FORCE_TO_SIGN_TIME_IN_FORCE tif
    let feeStr := order.builder_fee.getD "0.001"
    match parseDecimal feeStr with
    | none => .error (.invalidDecimal feeStr)
    | some fee =>
      .ok [("subAccountID", .i order.sub_account_id),
           ("isMarket", .b (order.is_market.getD false)),
           ("timeInForce", .i sign_tif.value),
           ("postOnly", .b (order.post_only.getD false)),
           ("reduceOnly", .b (order.reduce_only.getD false)),
           ("legs", .arr legs),
           ("builder", .s (order.builder.getD "")),
           ("builderFee", .i (pyInt (fracMulNat fee 10000))),
           ("nonce", .i order.signature.nonce),
           ("expiration", .i order.signature.expiration)]

/-- The signature components extracted from `account.sign_message` (an
external cryptographic library call, abstracted as a function input to
`sign_order`). -/
structure SigResult where
  r : String
  s : String
  v : ℤ
  signer : String
deriving DecidableEq

/-- `sign_order`: build the message, sign `(domain, types, message)` with
the supplied signer, and return the order with its signature sub-record
replaced (keys in source insertion order: `r`, `s`, `v`, `expiration`,
`nonce`, `signer`); all other order fields are copied unchanged. -/
def sign_order
    (signFn : List (String × Val) → List (String × List TypedField) → List (String × Val) → SigResult)
    (order : Order) (instruments : List (String × Instrument)) (env : GrvtEnv) :
    Except Err Order := do
  let message_data ← build_order_message_data order instruments
  let domain_data := get_eip712_domain_data env
  let signature := signFn domain_data EIP712_ORDER_MESSAGE_TYPE message_data
  .ok { order with signature :=
    { r := signature.r, s := signature.s, v := signature.v,
      expiration := order.signature.expiration,
      nonce := order.signature.nonce,
      signer := signature.signer } }

/-- Modelled from the spec: the scheme's canonical digest is "derived from
an explicit type schema and field ordering" over the domain, the type
schema and the message (`encode_typed_data` in the source is an external
library call not part of this repository); we model the digest by its
preimage triple, on which the hash is injective by assumption. -/
def signingInput (env : GrvtEnv) (message : List (String × Val)) :
    List (String × Val) × List (String × List TypedField) × List (String × Val) :=
  (get_eip712_domain_data env, EIP712_ORDER_MESSAGE_TYPE, message)

/-- Decidable equality for `Except` results (used to evaluate the
embedding at concrete inputs). -/
instance {ε α : Type} [DecidableEq ε] [DecidableEq α] : DecidableEq (Except ε α) := fun a b =>
  match a, b with
  | .error e1, .error e2 =>
    if h : e1 = e2 then isTrue (congrArg Except.error h)
    else isFalse fun hh => h (Except.error.inj hh)
  | .error _, .ok _ => isFalse fun hh => Except.noConfusion hh
  | .ok _, .error _ => isFalse fun hh => Except.noConfusion hh
  | .ok x, .ok y =>
    if h : x = y then isTrue (congrArg Except.ok h)
    else isFalse fun hh => h (Except.ok.inj hh)

/-! ## Helper lemmas -/

/-- Truncation toward zero of a nonnegative fraction is the floor of its
rational value. -/
theorem pyInt_eq_floor (f : Frac) (h : 0 ≤ f.num) : pyInt f = ⌊fracVal f⌋ := by
  rw [pyInt, fracVal, Rat.floor_intCast_div_natCast]
  obtain ⟨m, hm⟩ := Int.eq_ofNat_of_zero_le h
  rw [hm]
  rfl

/-- Truncation toward zero of a nonpositive fraction is the ceiling of
its rational value. -/
theorem pyInt_eq_ceil (f : Frac) (h : f.num ≤ 0) : pyInt f = ⌈fracVal f⌉ := by
  obtain ⟨m, hm⟩ := Int.eq_ofNat_of_zero_le (neg_nonneg.mpr h)
  have hnum : f.num = -(m : ℤ) := by omega
  rw [pyInt, fracVal, hnum, Int.neg_tdiv]
  have hcast : ((-(m : ℤ) : ℤ) : ℚ) = -((m : ℤ) : ℚ) := by push_cast; ring
  rw [hcast, neg_div, Int.ceil_neg, Rat.floor_intCast_div_natCast,
    Int.tdiv_eq_ediv (by positivity) (by positivity)]

/-- Every fraction produced by the decimal parser has a positive (power
of ten) denominator. -/
theorem parseDecimal_den_pos (s : String) (f : Frac) (h : parseDecimal s = some f) :
    0 < f.den := by
  unfold parseDecimal at h
  dsimp only at h
  split at h
  · cases h
  · try dsimp only at h
    split at h
    · try dsimp only at h
      split at h
      · obtain rfl := (Option.some.inj h).symm
        positivity
      · obtain rfl := (Option.some.inj h).symm
        positivity
    · cases h

/-- Reduction of `Except` bind on a success value. -/
theorem exceptOkBind {α β ε : Type} (a : α) (f : α → Except ε β) :
    (Except.ok a >>= f) = f a := rfl

/-- Reduction of `Except` bind on an error value. -/
theorem exceptErrorBind {α β ε : Type} (e : ε) (f : α → Except ε β) :
    ((Except.error e : Except ε α) >>= f) = Except.error e := rfl

/-- A successfully built leg dictionary always lists its four fields in
the source order. -/
theorem buildLeg_ok_fields (instruments : List (String × Instrument)) (leg : OrderLeg)
    (l : List (String × LegVal)) (h : buildLeg instruments leg = .ok l) :
    l.map Prod.fst = ["assetID", "contractSize", "limitPrice", "isBuyingContract"] := by
  unfold buildLeg at h
  split at h
  · cases h
  · split at h
    · cases h
    · split at h
      · cases h
      · cases h
        rfl

/-- A successful leg build requires the instrument to be present and both
decimal fields to parse, and determines the leg dictionary. -/
theorem buildLeg_ok_inv (instruments : List (String × Instrument)) (leg : OrderLeg)
    (l : List (String × LegVal)) (h : buildLeg instruments leg = .ok l) :
    ∃ instrument size price,
      instruments.lookup leg.instrument = some instrument ∧
      parseDecimal leg.size = some size ∧
      parseDecimal leg.limit_price = some price ∧
      l = [("assetID", .s instrument.instrument_hash),
           ("contractSize", .i (pyInt (fracMulNat size (10 ^ instrument.base_decimals)))),
           ("limitPrice", .i (pyInt (fracMulNat price PRICE_MULTIPLIER))),
           ("isBuyingContract", .b leg.is_buying_asset)] := by
  unfold buildLeg at h
  split at h
  · cases h
  · split at h
    · cases h
    · split at h
      · cases h
      · cases h
        exact ⟨_, _, _, by assumption, by assumption, by assumption, rfl⟩

/-- Every dictionary produced by the leg loop comes from a successful
`buildLeg`. -/
theorem buildLegs_ok_mem (instruments : List (String × Instrument)) (ls : List OrderLeg) :
    ∀ L, buildLegs instruments ls = .ok L →
      ∀ l ∈ L, ∃ leg, buildLeg instruments leg = .ok l := by
  induction ls with
  | nil =>
    intro L h l hl
    rw [buildLegs] at h
    cases h
    cases hl
  | cons leg rest ih =>
    intro L h l hl
    rw [buildLegs] at h
    cases h1 : buildLeg instruments leg with
    | error e => rw [h1, exceptErrorBind] at h; cases h
    | ok lv =>
      rw [h1, exceptOkBind] at h
      cases h2 : buildLegs instruments rest with
      | error e => rw [h2, exceptErrorBind] at h; cases h
      | ok ls2 =>
        rw [h2, exceptOkBind] at h
        obtain rfl : lv :: ls2 = L := by injection h
        rcases List.mem_cons.mp hl with rfl | hl2
        · exact ⟨leg, h1⟩
        · exact ih ls2 h2 l hl2

/-- Forward computation of `build_order_message_data` when every step
succeeds: the message dictionary in source insertion order. -/
theorem build_order_message_data_eq (order : Order) (instruments : List (String × Instrument))
    (L : List (List (String × LegVal))) (tif : TimeInForce) (fee : Frac)
    (hlegs : buildLegs instruments order.legs = .ok L)
    (htif : TimeInForce.ofString (order.time_in_force.getD "GOOD_TILL_TIME") = some tif)
    (hfee : parseDecimal (order.builder_fee.getD "0.001") = some fee) :
    build_order_message_data order instruments = .ok
      [("subAccountID", .i order.sub_account_id),
       ("isMarket", .b (order.is_market.getD false)),
       ("timeInForce", .i (TIME_IN_FORCE_TO_SIGN_TIME_IN_FORCE tif).value),
       ("postOnly", .b (order.post_only.getD false)),
       ("reduceOnly", .b (order.reduce_only.getD false)),
       ("legs", .arr L),
       ("builder", .s (order.builder.getD "")),
       ("builderFee", .i (pyInt (fracMulNat fee 10000))),
       ("nonce", .i order.signature.nonce),
       ("expiration", .i order.signature.expiration)] := by
  unfold build_order_message_data
  rw [hlegs, exceptOkBind]
  dsimp only
  split
  · rename_i hnone
    rw [htif] at hnone
    cases hnone
  · rename_i tif2 heq
    rw [htif] at heq
    injection heq with heq
    subst heq
    split
    · rename_i hnone
      rw [hfee] at hnone
      cases hnone
    · rename_i fee2 heq2
      rw [hfee] at heq2
      injection heq2 with heq2
      subst heq2
      rfl

/-- Inversion of a successful `build_order_message_data`: the legs loop,
the time-in-force bridge and the builder-fee parse all succeeded, and the
message is the source dictionary. -/
theorem build_order_message_data_ok_inv (order : Order) (instruments : List (String × Instrument))
    (msg : List (String × Val))
    (h : build_order_message_data order instruments = .ok msg) :
    ∃ L tif fee,
      buildLegs instruments order.legs = .ok L ∧
      TimeInForce.ofString (order.time_in_force.getD "GOOD_TILL_TIME") = some tif ∧
      parseDecimal (order.builder_fee.getD "0.001") = some fee ∧
      msg =
        [("subAccountID", .i order.sub_account_id),
         ("isMarket", .b (order.is_market.getD false)),
         ("timeInForce", .i (TIME_IN_FORCE_TO_SIGN_TIME_IN_FORCE tif).value),
         ("postOnly", .b (order.post_only.getD false)),
         ("reduceOnly", .b (order.reduce_only.getD false)),
         ("legs", .arr L),
         ("builder", .s (order.builder.getD "")),
         ("builderFee", .i (pyInt (fracMulNat fee 10000))),
         ("nonce", .i order.signature.nonce),
         ("expiration", .i order.signature.expiration)] := by
  unfold build_order_message_data at h
  cases hL : buildLegs instruments order.legs with
  | error e => rw [hL, exceptErrorBind] at h; cases h
  | ok L =>
    rw [hL, exceptOkBind] at h
    dsimp only at h
    split at h
    · cases h
    · rename_i tif heq
      split at h
      · cases h
      · rename_i fee hfee
        injection h with h
        exact ⟨L, tif, fee, rfl, heq, hfee, h.symm⟩

/-- Inversion of a successful `sign_order`: the message build succeeded
and the output order is the input with only its signature sub-record
replaced. -/
theorem sign_order_ok_inv
    (signFn : List (String × Val) → List (String × List TypedField) → List (String × Val) → SigResult)
    (order : Order) (instruments : List (String × Instrument)) (env : GrvtEnv) (out : Order)
    (h : sign_order signFn order instruments env = .ok out) :
    ∃ msg, build_order_message_data order instruments = .ok msg ∧
      out = { order with signature :=
        { r := (signFn (get_eip712_domain_data env) EIP712_ORDER_MESSAGE_TYPE msg).r,
          s := (signFn (get_eip712_domain_data env) EIP712_ORDER_MESSAGE_TYPE msg).s,
          v := (signFn (get_eip712_domain_data env) EIP712_ORDER_MESSAGE_TYPE msg).v,
          expiration := order.signature.expiration,
          nonce := order.signature.nonce,
          signer := (signFn (get_eip712_domain_data env) EIP712_ORDER_MESSAGE_TYPE msg).signer } } := by
  unfold sign_order at h
  cases hm : build_order_message_data order instruments with
  | error e => rw [hm, exceptErrorBind] at h; cases h
  | ok msg =>
    rw [hm, exceptOkBind] at h
    dsimp only at h
    injection h with h
    exact ⟨msg, rfl, h.symm⟩

/-- When some leg references an unknown instrument and every leg's
decimal fields parse, the leg loop fails with the unknown-instrument
error of the first such leg. -/
theorem buildLegs_unknown (instruments : List (String × Instrument)) (ls : List OrderLeg)
    (hdec : ∀ leg ∈ ls, (parseDecimal leg.size).isSome ∧ (parseDecimal leg.limit_price).isSome)
    (hbad : ∃ leg ∈ ls, instruments.lookup leg.instrument = none) :
    ∃ name, instruments.lookup name = none ∧
      buildLegs instruments ls = .error (.unknownInstrument name) := by
  induction ls with
  | nil => rcases hbad with ⟨leg, hmem, _⟩; cases hmem
  | cons leg rest ih =>
    cases h1 : instruments.lookup leg.instrument with
    | none =>
      refine ⟨leg.instrument, h1, ?_⟩
      have hleg : buildLeg instruments leg = .error (.unknownInstrument leg.instrument) := by
        unfold buildLeg; rw [h1]
      rw [buildLegs, hleg, exceptErrorBind]
    | some inst =>
      obtain ⟨hs, hp⟩ := hdec leg (List.mem_cons_self leg rest)
      obtain ⟨sz, hsz⟩ := Option.isSome_iff_exists.mp hs
      obtain ⟨px, hpx⟩ := Option.isSome_iff_exists.mp hp
      have hleg : buildLeg instruments leg = .ok
          [("assetID", .s inst.instrument_hash),
           ("contractSize", .i (pyInt (fracMulNat sz (10 ^ inst.base_decimals)))),
           ("limitPrice", .i (pyInt (fracMulNat px PRICE_MULTIPLIER))),
           ("isBuyingContract", .b leg.is_buying_asset)] := by
        unfold buildLeg; rw [h1, hsz, hpx]
      have hbad2 : ∃ leg2 ∈ rest, instruments.lookup leg2.instrument = none := by
        rcases hbad with ⟨leg2, hmem, hl⟩
        rcases List.mem_cons.mp hmem with rfl | hmem2
        · rw [h1] at hl; cases hl
        · exact ⟨leg2, hmem2, hl⟩
      obtain ⟨name, hn, hrec⟩ := ih (fun l hl => hdec l (List.mem_cons_of_mem _ hl)) hbad2
      refine ⟨name, hn, ?_⟩
      rw [buildLegs, hleg, exceptOkBind, hrec, exceptErrorBind]

/-! ## Claim theorems -/

/-- C1 (counterexample): the claim that scale(d, k) returns the integer
nearest to d times k, computed with exact decimal arithmetic and never
binary floating point, is false on three counts.  The order path
truncates: scale("0.00019", 10000) returns 1 although the exact product
is 1.9 (nearest integer 2, distance from 1 exceeds 1/2).  The authorize
path goes through binary64 floats: for "0.0003" it returns 2 while exact
decimal arithmetic gives 3.  And the order path's Decimal arithmetic is
not exact either: for the 29-significant-digit fee string
"1.9999999999999999999999999999" the default-context rounding makes the
program return 20000 while truncation of the exact product gives
19999. -/
theorem C1_counterexample :
    parseDecimal "0.00019" = some ⟨19, 100000⟩ ∧
    scaleDec "0.00019" 10000 = some 1 ∧
    1 / 2 < |(1 : ℚ) - fracVal ⟨19, 100000⟩ * 10000| ∧
    parseDecimal "0.0003" = some ⟨3, 10000⟩ ∧
    authFeeToUint32 "0.0003" = some 2 ∧
    scaleDec "0.0003" 10000 = some 3 ∧
    parseDecimal "1.9999999999999999999999999999" =
      some ⟨19999999999999999999999999999, 10 ^ 28⟩ ∧
    scaleDec "1.9999999999999999999999999999" 10000 = some 20000 ∧
    pyInt (fracMulNat ⟨19999999999999999999999999999, 10 ^ 28⟩ 10000) = 19999 := by
  refine ⟨by decide, by decide, ?_, by decide, by decide, by decide, by decide, by decide,
    by decide⟩
  have h : (1 : ℚ) - fracVal ⟨19, 100000⟩ * 10000 = -(9 / 10) := by
    norm_num [fracVal]
  rw [h, abs_neg, abs_of_pos (by norm_num : (0 : ℚ) < 9 / 10)]
  norm_num

/-- C1 (amended): whenever the exact product of a parsed decimal and the
scale factor needs at most 28 significant digits (so the default decimal
context leaves the product unrounded), the order path's scaling equals
the exact product truncated toward zero: the floor for nonnegative
inputs, the ceiling for negative ones — not the nearest integer.  Beyond
28 significant digits the program applies the context's half-even
rounding first, as `scaleDec` models and the counterexample exhibits. -/
theorem C1_scale_truncation (s : String) (f : Frac) (k : ℕ)
    (h : parseDecimal s = some f)
    (hfits : ctxRound (fracMulNat f k) = fracMulNat f k) :
    (0 ≤ f.num → scaleDec s k = some ⌊fracVal f * (k : ℚ)⌋) ∧
    (f.num < 0 → scaleDec s k = some ⌈fracVal f * (k : ℚ)⌉) := by
  have hval : fracVal (fracMulNat f k) = fracVal f * (k : ℚ) := by
    rw [fracVal, fracVal, fracMulNat]
    push_cast
    ring
  constructor
  · intro h0
    rw [scaleDec, h]
    refine congrArg some ?_
    show pyInt (ctxRound (fracMulNat f k)) = _
    have hnn : 0 ≤ (fracMulNat f k).num := by
      show (0 : ℤ) ≤ f.num * (k : ℤ)
      exact mul_nonneg h0 (Int.natCast_nonneg k)
    rw [hfits, pyInt_eq_floor _ hnn, hval]
  · intro h0
    rw [scaleDec, h]
    refine congrArg some ?_
    show pyInt (ctxRound (fracMulNat f k)) = _
    have hnp : (fracMulNat f k).num ≤ 0 := by
      show f.num * (k : ℤ) ≤ 0
      have hk : (0 : ℤ) ≤ (k : ℤ) := Int.natCast_nonneg k
      nlinarith
    rw [hfits, pyInt_eq_ceil _ hnp, hval]

/-- C1 witness: scale("0.1", 1_000_000_000) at the concrete parse result
1/10, whose product fits the 28-digit context. -/
theorem C1_scale_truncation_witness :
    scaleDec "0.1" 1000000000 = some ⌊fracVal ⟨1, 10⟩ * ((1000000000 : ℕ) : ℚ)⌋ :=
  (C1_scale_truncation "0.1" ⟨1, 10⟩ 1000000000 (by decide) (by decide)).1 (by decide)

/-- C2: fee-rate strings "0.001" and "0.0001" convert to 10 and 1 under
the 10,000 multiplier, both on the authorize path (through float) and on
the order path (through Decimal), and the authorization payload carries
maxFutureFeeRate 10 and maxSpotFeeRate 1. -/
theorem C2_fee_rate_scaling (env : EnvConfig) (main builder signer perms : String)
    (nonce exp : ℤ) :
    authFeeToUint32 "0.001" = some 10 ∧
    authFeeToUint32 "0.0001" = some 1 ∧
    (∃ p, authorize_builder_typed env main builder signer perms "0.001" "0.0001" nonce exp =
        some p ∧
      p.message.lookup "maxFutureFeeRate" = some (.i 10) ∧
      p.message.lookup "maxSpotFeeRate" = some (.i 1)) ∧
    scaleDec "0.001" 10000 = some 10 ∧
    scaleDec "0.0001" 10000 = some 1 := by
  have h1 : authFeeToUint32 "0.001" = some 10 := by decide
  have h2 : authFeeToUint32 "0.0001" = some 1 := by decide
  have hp : authorize_builder_typed env main builder signer perms "0.001" "0.0001" nonce exp =
      some (build_eip712_payload (ensure_0x main) (ensure_0x builder) (ensure_0x signer) perms
        10 1 nonce exp env.chain_id) := by
    unfold authorize_builder_typed
    rw [h1, h2]
  exact ⟨h1, h2, ⟨_, hp, rfl, rfl⟩, by decide, by decide⟩

/-- C3: the builder-authorization payload always has primary type
AddAccountSignerWithBuilder, message fields in the fixed order with the
exact declared type strings, domain name "GRVT Exchange", version "0",
a uint256 chainId, and the authorize flow sets the domain chainId to the
environment's chain id. -/
theorem C3_authorization_payload_shape
    (main builder signer perms mfs mss : String) (mf ms nonce exp chainId : ℤ)
    (env : EnvConfig) (p2 : Eip712Payload)
    (hp : authorize_builder_typed env main builder signer perms mfs mss nonce exp = some p2) :
    ((build_eip712_payload main builder signer perms mf ms nonce exp chainId).primaryType =
        "AddAccountSignerWithBuilder" ∧
      (build_eip712_payload main builder signer perms mf ms nonce exp chainId).message.map
          Prod.fst =
        ["accountID", "signer", "permissions", "builderAccountID", "maxFutureFeeRate",
         "maxSpotFeeRate", "nonce", "expiration"] ∧
      (build_eip712_payload main builder signer perms mf ms nonce exp chainId).types.lookup
          "AddAccountSignerWithBuilder" =
        some [⟨"accountID", "address"⟩, ⟨"signer", "address"⟩, ⟨"permissions", "string"⟩,
          ⟨"builderAccountID", "address"⟩, ⟨"maxFutureFeeRate", "uint32"⟩,
          ⟨"maxSpotFeeRate", "uint32"⟩, ⟨"nonce", "uint32"⟩, ⟨"expiration", "int64"⟩] ∧
      (build_eip712_payload main builder signer perms mf ms nonce exp chainId).types.lookup
          "EIP712Domain" =
        some [⟨"name", "string"⟩, ⟨"version", "string"⟩, ⟨"chainId", "uint256"⟩] ∧
      (build_eip712_payload main builder signer perms mf ms nonce exp chainId).domain.lookup
          "name" = some (.s "GRVT Exchange") ∧
      (build_eip712_payload main builder signer perms mf ms nonce exp chainId).domain.lookup
          "version" = some (.s "0") ∧
      (build_eip712_payload main builder signer perms mf ms nonce exp chainId).domain.lookup
          "chainId" = some (.i chainId)) ∧
    p2.primaryType = "AddAccountSignerWithBuilder" ∧
    p2.domain.lookup "chainId" = some (.i env.chain_id) := by
  refine ⟨⟨rfl, rfl, rfl, rfl, rfl, rfl, rfl⟩, ?_⟩
  unfold authorize_builder_typed at hp
  split at hp
  · injection hp with hp
    subst hp
    exact ⟨rfl, rfl⟩
  · cases hp

/-- C3 witness: the payload shape at concrete testnet inputs. -/
theorem C3_authorization_payload_shape_witness :
    ((build_eip712_payload "0xaa" "0xbb" "0xcc" "Trade" 10 1 7 9 326).primaryType =
        "AddAccountSignerWithBuilder" ∧
      (build_eip712_payload "0xaa" "0xbb" "0xcc" "Trade" 10 1 7 9 326).message.map Prod.fst =
        ["accountID", "signer", "permissions", "builderAccountID", "maxFutureFeeRate",
         "maxSpotFeeRate", "nonce", "expiration"] ∧
      (build_eip712_payload "0xaa" "0xbb" "0xcc" "Trade" 10 1 7 9 326).types.lookup
          "AddAccountSignerWithBuilder" =
        some [⟨"accountID", "address"⟩, ⟨"signer", "address"⟩, ⟨"permissions", "string"⟩,
          ⟨"builderAccountID", "address"⟩, ⟨"maxFutureFeeRate", "uint32"⟩,
          ⟨"maxSpotFeeRate", "uint32"⟩, ⟨"nonce", "uint32"⟩, ⟨"expiration", "int64"⟩] ∧
      (build_eip712_payload "0xaa" "0xbb" "0xcc" "Trade" 10 1 7 9 326).types.lookup
          "EIP712Domain" =
        some [⟨"name", "string"⟩, ⟨"version", "string"⟩, ⟨"chainId", "uint256"⟩] ∧
      (build_eip712_payload "0xaa" "0xbb" "0xcc" "Trade" 10 1 7 9 326).domain.lookup "name" =
        some (.s "GRVT Exchange") ∧
      (build_eip712_payload "0xaa" "0xbb" "0xcc" "Trade" 10 1 7 9 326).domain.lookup "version" =
        some (.s "0") ∧
      (build_eip712_payload "0xaa" "0xbb" "0xcc" "Trade" 10 1 7 9 326).domain.lookup "chainId" =
        some (.i 326)) ∧
    (build_eip712_payload "0xaa" "0xbb" "0xcc" "Trade" 10 1 7 9 326).primaryType =
      "AddAccountSignerWithBuilder" ∧
    (build_eip712_payload "0xaa" "0xbb" "0xcc" "Trade" 10 1 7 9 326).domain.lookup "chainId" =
      some (.i (EnvConfig.mk "testnet" "https://edge.testnet.grvt.io"
        "https://trades.testnet.grvt.io" 326).chain_id) :=
  C3_authorization_payload_shape "0xaa" "0xbb" "0xcc" "Trade" "0.001" "0.0001" 10 1 7 9 326
    (EnvConfig.mk "testnet" "https://edge.testnet.grvt.io" "https://trades.testnet.grvt.io" 326)
    (build_eip712_payload "0xaa" "0xbb" "0xcc" "Trade" 10 1 7 9 326) (by decide)

/-- C4: the order schema has primary type OrderWithBuilderFee with
nested array type OrderLeg[]; every built order message lists its fields
in the order subAccountID, isMarket, timeInForce, postOnly, reduceOnly,
legs, builder, builderFee, nonce, expiration, and every leg dictionary
lists assetID, contractSize, limitPrice, isBuyingContract. -/
theorem C4_order_payload_shape (order : Order) (instruments : List (String × Instrument))
    (msg : List (String × Val)) (legs : List (List (String × LegVal)))
    (l : List (String × LegVal))
    (h : build_order_message_data order instruments = .ok msg)
    (hlegs : msg.lookup "legs" = some (.arr legs))
    (hl : l ∈ legs) :
    EIP712_ORDER_MESSAGE_TYPE.map Prod.fst = ["OrderWithBuilderFee", "OrderLeg"] ∧
    EIP712_ORDER_MESSAGE_TYPE.lookup "OrderWithBuilderFee" =
      some [⟨"subAccountID", "uint64"⟩, ⟨"isMarket", "bool"⟩, ⟨"timeInForce", "uint8"⟩,
        ⟨"postOnly", "bool"⟩, ⟨"reduceOnly", "bool"⟩, ⟨"legs", "OrderLeg[]"⟩,
        ⟨"builder", "address"⟩, ⟨"builderFee", "uint32"⟩, ⟨"nonce", "uint32"⟩,
        ⟨"expiration", "int64"⟩] ∧
    EIP712_ORDER_MESSAGE_TYPE.lookup "OrderLeg" =
      some [⟨"assetID", "uint256"⟩, ⟨"contractSize", "uint64"⟩, ⟨"limitPrice", "uint64"⟩,
        ⟨"isBuyingContract", "bool"⟩] ∧
    msg.map Prod.fst = ["subAccountID", "isMarket", "timeInForce", "postOnly", "reduceOnly",
      "legs", "builder", "builderFee", "nonce", "expiration"] ∧
    l.map Prod.fst = ["assetID", "contractSize", "limitPrice", "isBuyingContract"] := by
  obtain ⟨L, tif, fee, hL, htif, hfee, rfl⟩ :=
    build_order_message_data_ok_inv order instruments msg h
  refine ⟨rfl, rfl, rfl, rfl, ?_⟩
  have h2 : some (Val.arr L) = some (Val.arr legs) := hlegs
  injection h2 with h2
  injection h2 with h2
  subst h2
  obtain ⟨leg, hlegOk⟩ := buildLegs_ok_mem instruments order.legs L hL l hl
  exact buildLeg_ok_fields instruments leg l hlegOk

/-- C4 witness: field order at a concrete one-leg order. -/
theorem C4_order_payload_shape_witness :
    EIP712_ORDER_MESSAGE_TYPE.map Prod.fst = ["OrderWithBuilderFee", "OrderLeg"] ∧
    EIP712_ORDER_MESSAGE_TYPE.lookup "OrderWithBuilderFee" =
      some [⟨"subAccountID", "uint64"⟩, ⟨"isMarket", "bool"⟩, ⟨"timeInForce", "uint8"⟩,
        ⟨"postOnly", "bool"⟩, ⟨"reduceOnly", "bool"⟩, ⟨"legs", "OrderLeg[]"⟩,
        ⟨"builder", "address"⟩, ⟨"builderFee", "uint32"⟩, ⟨"nonce", "uint32"⟩,
        ⟨"expiration", "int64"⟩] ∧
    EIP712_ORDER_MESSAGE_TYPE.lookup "OrderLeg" =
      some [⟨"assetID", "uint256"⟩, ⟨"contractSize", "uint64"⟩, ⟨"limitPrice", "uint64"⟩,
        ⟨"isBuyingContract", "bool"⟩] ∧
    List.map Prod.fst
        [("subAccountID", Val.i 5), ("isMarket", Val.b false), ("timeInForce", Val.i 1),
         ("postOnly", Val.b false), ("reduceOnly", Val.b false),
         ("legs", Val.arr [[("assetID", LegVal.s "0xh"), ("contractSize", LegVal.i 10),
            ("limitPrice", LegVal.i 2000000000), ("isBuyingContract", LegVal.b true)]]),
         ("builder", Val.s ""), ("builderFee", Val.i 10), ("nonce", Val.i 88),
         ("expiration", Val.i 77)] =
      ["subAccountID", "isMarket", "timeInForce", "postOnly", "reduceOnly",
       "legs", "builder", "builderFee", "nonce", "expiration"] ∧
    List.map Prod.fst
        [("assetID", LegVal.s "0xh"), ("contractSize", LegVal.i 10),
         ("limitPrice", LegVal.i 2000000000), ("isBuyingContract", LegVal.b true)] =
      ["assetID", "contractSize", "limitPrice", "isBuyingContract"] :=
  C4_order_payload_shape
    { sub_account_id := 5,
      legs := [{ instrument := "I", size := "1", limit_price := "2", is_buying_asset := true }],
      signature := { r := "", s := "", v := 0, expiration := 77, nonce := 88, signer := "" },
      time_in_force := none, is_market := none, post_only := none, reduce_only := none,
      builder := none, builder_fee := none }
    [("I", { instrument_hash := "0xh", base_decimals := 1 })]
    [("subAccountID", Val.i 5), ("isMarket", Val.b false), ("timeInForce", Val.i 1),
     ("postOnly", Val.b false), ("reduceOnly", Val.b false),
     ("legs", Val.arr [[("assetID", LegVal.s "0xh"), ("contractSize", LegVal.i 10),
        ("limitPrice", LegVal.i 2000000000), ("isBuyingContract", LegVal.b true)]]),
     ("builder", Val.s ""), ("builderFee", Val.i 10), ("nonce", Val.i 88),
     ("expiration", Val.i 77)]
    [[("assetID", LegVal.s "0xh"), ("contractSize", LegVal.i 10),
      ("limitPrice", LegVal.i 2000000000), ("isBuyingContract", LegVal.b true)]]
    [("assetID", LegVal.s "0xh"), ("contractSize", LegVal.i 10),
     ("limitPrice", LegVal.i 2000000000), ("isBuyingContract", LegVal.b true)]
    (by decide) (by decide) (by decide)

/-- C5: the time-in-force bridge maps GOOD_TILL_TIME, ALL_OR_NONE,
IMMEDIATE_OR_CANCEL, FILL_OR_KILL to 1, 2, 3, 4 (total on the enum), and
any time_in_force string outside the enum makes the message build fail
with a malformed-payload error instead of defaulting. -/
theorem C5_time_in_force_bridging (order : Order) (instruments : List (String × Instrument))
    (s : String) (L : List (List (String × LegVal)))
    (hs : order.time_in_force = some s)
    (hunknown : TimeInForce.ofString s = none)
    (hlegs : buildLegs instruments order.legs = .ok L) :
    ((TIME_IN_FORCE_TO_SIGN_TIME_IN_FORCE .GOOD_TILL_TIME).value = 1 ∧
     (TIME_IN_FORCE_TO_SIGN_TIME_IN_FORCE .ALL_OR_NONE).value = 2 ∧
     (TIME_IN_FORCE_TO_SIGN_TIME_IN_FORCE .IMMEDIATE_OR_CANCEL).value = 3 ∧
     (TIME_IN_FORCE_TO_SIGN_TIME_IN_FORCE .FILL_OR_KILL).value = 4) ∧
    build_order_message_data order instruments = .error (.malformedPayload s) := by
  refine ⟨⟨rfl, rfl, rfl, rfl⟩, ?_⟩
  have hstr : order.time_in_force.getD "GOOD_TILL_TIME" = s := by rw [hs]; rfl
  unfold build_order_message_data
  rw [hlegs, exceptOkBind]
  dsimp only
  rw [hstr, hunknown]

/-- C5 witness: the unknown string "DAY" fails the build. -/
theorem C5_time_in_force_bridging_witness :
    ((TIME_IN_FORCE_TO_SIGN_TIME_IN_FORCE .GOOD_TILL_TIME).value = 1 ∧
     (TIME_IN_FORCE_TO_SIGN_TIME_IN_FORCE .ALL_OR_NONE).value = 2 ∧
     (TIME_IN_FORCE_TO_SIGN_TIME_IN_FORCE .IMMEDIATE_OR_CANCEL).value = 3 ∧
     (TIME_IN_FORCE_TO_SIGN_TIME_IN_FORCE .FILL_OR_KILL).value = 4) ∧
    build_order_message_data
        { sub_account_id := 1, legs := [],
          signature := { r := "", s := "", v := 0, expiration := 3, nonce := 4, signer := "" },
          time_in_force := some "DAY", is_market := none, post_only := none,
          reduce_only := none, builder := none, builder_fee := none } [] =
      .error (.malformedPayload "DAY") :=
  C5_time_in_force_bridging
    { sub_account_id := 1, legs := [],
      signature := { r := "", s := "", v := 0, expiration := 3, nonce := 4, signer := "" },
      time_in_force := some "DAY", is_market := none, post_only := none,
      reduce_only := none, builder := none, builder_fee := none }
    [] "DAY" [] rfl (by decide) rfl

/-- C6: an order with a leg whose instrument is absent from the
directory (and otherwise parsable legs) fails both the message build and
sign_order with the unknown-instrument error; no signed order is
returned. -/
theorem C6_unknown_instrument_aborts
    (signFn : List (String × Val) → List (String × List TypedField) → List (String × Val) →
      SigResult)
    (env : GrvtEnv) (order : Order) (instruments : List (String × Instrument))
    (hdec : ∀ leg ∈ order.legs,
      (parseDecimal leg.size).isSome ∧ (parseDecimal leg.limit_price).isSome)
    (hbad : ∃ leg ∈ order.legs, instruments.lookup leg.instrument = none) :
    ∃ name, instruments.lookup name = none ∧
      build_order_message_data order instruments = .error (.unknownInstrument name) ∧
      sign_order signFn order instruments env = .error (.unknownInstrument name) := by
  obtain ⟨name, hn, hLegs⟩ := buildLegs_unknown instruments order.legs hdec hbad
  have hb : build_order_message_data order instruments = .error (.unknownInstrument name) := by
    unfold build_order_message_data
    rw [hLegs, exceptErrorBind]
  refine ⟨name, hn, hb, ?_⟩
  unfold sign_order
  rw [hb, exceptErrorBind]

/-- C6 witness: a one-leg order on instrument "NOPE" against an empty
directory. -/
theorem C6_unknown_instrument_aborts_witness :
    ∃ name, List.lookup name ([] : List (String × Instrument)) = none ∧
      build_order_message_data
          { sub_account_id := 9,
            legs := [{ instrument := "NOPE", size := "1", limit_price := "2",
                       is_buying_asset := true }],
            signature := { r := "", s := "", v := 0, expiration := 3, nonce := 4, signer := "" },
            time_in_force := none, is_market := none, post_only := none,
            reduce_only := none, builder := none, builder_fee := none } [] =
        .error (.unknownInstrument name) ∧
      sign_order (fun _ _ _ => { r := "", s := "", v := 0, signer := "" })
          { sub_account_id := 9,
            legs := [{ instrument := "NOPE", size := "1", limit_price := "2",
                       is_buying_asset := true }],
            signature := { r := "", s := "", v := 0, expiration := 3, nonce := 4, signer := "" },
            time_in_force := none, is_market := none, post_only := none,
            reduce_only := none, builder := none, builder_fee := none } [] GrvtEnv.TESTNET =
        .error (.unknownInstrument name) :=
  C6_unknown_instrument_aborts (fun _ _ _ => { r := "", s := "", v := 0, signer := "" })
    GrvtEnv.TESTNET
    { sub_account_id := 9,
      legs := [{ instrument := "NOPE", size := "1", limit_price := "2",
                 is_buying_asset := true }],
      signature := { r := "", s := "", v := 0, expiration := 3, nonce := 4, signer := "" },
      time_in_force := none, is_market := none, post_only := none,
      reduce_only := none, builder := none, builder_fee := none }
    [] (by decide) (by decide)

/-- C7 (counterexample): the claim that scaling fails with an Overflow
error when the result exceeds the target width is false: a builder fee of
"500000" scales to 5,000,000,000, which exceeds the uint32 range, yet the
message build succeeds and embeds the out-of-range value. -/
theorem C7_counterexample :
    build_order_message_data
        { sub_account_id := 1, legs := [],
          signature := { r := "", s := "", v := 0, expiration := 1700000000000000000,
                         nonce := 42, signer := "" },
          time_in_force := none, is_market := none, post_only := none,
          reduce_only := none, builder := none, builder_fee := some "500000" } [] =
      Except.ok
        [("subAccountID", .i 1), ("isMarket", .b false), ("timeInForce", .i 1),
         ("postOnly", .b false), ("reduceOnly", .b false), ("legs", .arr []),
         ("builder", .s ""), ("builderFee", .i 5000000000), ("nonce", .i 42),
         ("expiration", .i 1700000000000000000)] ∧
    ¬ (5000000000 : ℤ) < 2 ^ 32 :=
  ⟨by decide, by decide⟩

/-- C7 (amended): the scaling performs no width check at all: whenever
the legs, time-in-force and fee parse, the message build succeeds and the
builderFee field carries the truncated product unchecked, whatever its
magnitude. -/
theorem C7_no_overflow_check (order : Order) (instruments : List (String × Instrument))
    (L : List (List (String × LegVal))) (tif : TimeInForce) (fee : Frac)
    (hlegs : buildLegs instruments order.legs = .ok L)
    (htif : TimeInForce.ofString (order.time_in_force.getD "GOOD_TILL_TIME") = some tif)
    (hfee : parseDecimal (order.builder_fee.getD "0.001") = some fee) :
    ∃ msg, build_order_message_data order instruments = .ok msg ∧
      msg.lookup "builderFee" = some (.i (pyInt (fracMulNat fee 10000))) := by
  exact ⟨_, build_order_message_data_eq order instruments L tif fee hlegs htif hfee, rfl⟩

/-- C7 witness: the build succeeds at the out-of-uint32-range fee
"500000". -/
theorem C7_no_overflow_check_witness :
    ∃ msg, build_order_message_data
        { sub_account_id := 1, legs := [],
          signature := { r := "", s := "", v := 0, expiration := 5, nonce := 6, signer := "" },
          time_in_force := none, is_market := none, post_only := none,
          reduce_only := none, builder := none, builder_fee := some "500000" } [] = .ok msg ∧
      msg.lookup "builderFee" = some (.i (pyInt (fracMulNat ⟨500000, 1⟩ 10000))) :=
  C7_no_overflow_check
    { sub_account_id := 1, legs := [],
      signature := { r := "", s := "", v := 0, expiration := 5, nonce := 6, signer := "" },
      time_in_force := none, is_market := none, post_only := none,
      reduce_only := none, builder := none, builder_fee := some "500000" }
    [] [] .GOOD_TILL_TIME ⟨500000, 1⟩ rfl rfl (by decide)

/-- C8: two orders identical except for swapped legs produce different
typed messages whose legs entries preserve the caller's leg order, hence
different canonical signing inputs (digest preimages). -/
theorem C8_leg_order_matters (env : GrvtEnv) (o1 : Order)
    (instruments : List (String × Instrument)) (A B : OrderLeg)
    (la lb : List (String × LegVal)) (tif : TimeInForce) (fee : Frac)
    (h1 : o1.legs = [A, B])
    (hA : buildLeg instruments A = .ok la)
    (hB : buildLeg instruments B = .ok lb)
    (hne : la ≠ lb)
    (htif : TimeInForce.ofString (o1.time_in_force.getD "GOOD_TILL_TIME") = some tif)
    (hfee : parseDecimal (o1.builder_fee.getD "0.001") = some fee) :
    ∃ m1 m2,
      build_order_message_data o1 instruments = .ok m1 ∧
      build_order_message_data { o1 with legs := [B, A] } instruments = .ok m2 ∧
      m1.lookup "legs" = some (.arr [la, lb]) ∧
      m2.lookup "legs" = some (.arr [lb, la]) ∧
      m1 ≠ m2 ∧
      signingInput env m1 ≠ signingInput env m2 := by
  have hL1 : buildLegs instruments [A, B] = .ok [la, lb] := by
    simp only [buildLegs, hA, hB, exceptOkBind]
  have hL2 : buildLegs instruments [B, A] = .ok [lb, la] := by
    simp only [buildLegs, hA, hB, exceptOkBind]
  have e1 := build_order_message_data_eq o1 instruments [la, lb] tif fee
    (by rw [h1]; exact hL1) htif hfee
  have e2 := build_order_message_data_eq { o1 with legs := [B, A] } instruments [lb, la] tif fee
    hL2 htif hfee
  have hne12 : ∀ x y : List (String × Val),
      build_order_message_data o1 instruments = .ok x →
      build_order_message_data { o1 with legs := [B, A] } instruments = .ok y →
      x ≠ y := by
    intro x y hx hy hxy
    rw [e1] at hx
    rw [e2] at hy
    injection hx with hx
    injection hy with hy
    subst hx
    subst hy
    have h3 : some (Val.arr [la, lb]) = some (Val.arr [lb, la]) :=
      congrArg (fun m => List.lookup "legs" m) hxy
    injection h3 with h3
    injection h3 with h3
    injection h3 with h4 h5
    exact hne h4
  refine ⟨_, _, e1, e2, rfl, rfl, hne12 _ _ e1 e2, fun hsi => hne12 _ _ e1 e2 ?_⟩
  exact congrArg (fun t => t.2.2) hsi

/-- C8 witness: concrete legs [A, B] versus [B, A]. -/
theorem C8_leg_order_matters_witness :
    ∃ m1 m2,
      build_order_message_data
          { sub_account_id := 5,
            legs := [{ instrument := "I", size := "1", limit_price := "2",
                       is_buying_asset := true },
                     { instrument := "I", size := "3", limit_price := "4",
                       is_buying_asset := false }],
            signature := { r := "", s := "", v := 0, expiration := 77, nonce := 88, signer := "" },
            time_in_force := none, is_market := none, post_only := none,
            reduce_only := none, builder := none, builder_fee := none }
          [("I", { instrument_hash := "0xh", base_decimals := 1 })] = .ok m1 ∧
      build_order_message_data
          { sub_account_id := 5,
            legs := [{ instrument := "I", size := "3", limit_price := "4",
                       is_buying_asset := false },
                     { instrument := "I", size := "1", limit_price := "2",
                       is_buying_asset := true }],
            signature := { r := "", s := "", v := 0, expiration := 77, nonce := 88, signer := "" },
            time_in_force := none, is_market := none, post_only := none,
            reduce_only := none, builder := none, builder_fee := none }
          [("I", { instrument_hash := "0xh", base_decimals := 1 })] = .ok m2 ∧
      m1.lookup "legs" = some (.arr
        [[("assetID", LegVal.s "0xh"), ("contractSize", LegVal.i 10),
          ("limitPrice", LegVal.i 2000000000), ("isBuyingContract", LegVal.b true)],
         [("assetID", LegVal.s "0xh"), ("contractSize", LegVal.i 30),
          ("limitPrice", LegVal.i 4000000000), ("isBuyingContract", LegVal.b false)]]) ∧
      m2.lookup "legs" = some (.arr
        [[("assetID", LegVal.s "0xh"), ("contractSize", LegVal.i 30),
          ("limitPrice", LegVal.i 4000000000), ("isBuyingContract", LegVal.b false)],
         [("assetID", LegVal.s "0xh"), ("contractSize", LegVal.i 10),
          ("limitPrice", LegVal.i 2000000000), ("isBuyingContract", LegVal.b true)]]) ∧
      m1 ≠ m2 ∧
      signingInput GrvtEnv.TESTNET m1 ≠ signingInput GrvtEnv.TESTNET m2 :=
  C8_leg_order_matters GrvtEnv.TESTNET
    { sub_account_id := 5,
      legs := [{ instrument := "I", size := "1", limit_price := "2", is_buying_asset := true },
               { instrument := "I", size := "3", limit_price := "4", is_buying_asset := false }],
      signature := { r := "", s := "", v := 0, expiration := 77, nonce := 88, signer := "" },
      time_in_force := none, is_market := none, post_only := none,
      reduce_only := none, builder := none, builder_fee := none }
    [("I", { instrument_hash := "0xh", base_decimals := 1 })]
    { instrument := "I", size := "1", limit_price := "2", is_buying_asset := true }
    { instrument := "I", size := "3", limit_price := "4", is_buying_asset := false }
    [("assetID", LegVal.s "0xh"), ("contractSize", LegVal.i 10),
     ("limitPrice", LegVal.i 2000000000), ("isBuyingContract", LegVal.b true)]
    [("assetID", LegVal.s "0xh"), ("contractSize", LegVal.i 30),
     ("limitPrice", LegVal.i 4000000000), ("isBuyingContract", LegVal.b false)]
    .GOOD_TILL_TIME ⟨1, 1000⟩ rfl (by decide) (by decide) (by decide) rfl (by decide)

/-- C9: a successful sign_order returns the input order with exactly
the signature sub-record fields r, s, v, signer replaced by the computed
signature, the caller-supplied expiration and nonce preserved, and every
other order field unchanged. -/
theorem C9_sign_order_frame
    (signFn : List (String × Val) → List (String × List TypedField) → List (String × Val) →
      SigResult)
    (env : GrvtEnv) (order : Order) (instruments : List (String × Instrument)) (out : Order)
    (h : sign_order signFn order instruments env = .ok out) :
    ∃ msg, build_order_message_data order instruments = .ok msg ∧
      out.signature.r = (signFn (get_eip712_domain_data env) EIP712_ORDER_MESSAGE_TYPE msg).r ∧
      out.signature.s = (signFn (get_eip712_domain_data env) EIP712_ORDER_MESSAGE_TYPE msg).s ∧
      out.signature.v = (signFn (get_eip712_domain_data env) EIP712_ORDER_MESSAGE_TYPE msg).v ∧
      out.signature.signer =
        (signFn (get_eip712_domain_data env) EIP712_ORDER_MESSAGE_TYPE msg).signer ∧
      out.signature.expiration = order.signature.expiration ∧
      out.signature.nonce = order.signature.nonce ∧
      out.sub_account_id = order.sub_account_id ∧
      out.legs = order.legs ∧
      out.time_in_force = order.time_in_force ∧
      out.is_market = order.is_market ∧
      out.post_only = order.post_only ∧
      out.reduce_only = order.reduce_only ∧
      out.builder = order.builder ∧
      out.builder_fee = order.builder_fee := by
  obtain ⟨msg, hm, rfl⟩ := sign_order_ok_inv signFn order instruments env out h
  exact ⟨msg, hm, rfl, rfl, rfl, rfl, rfl, rfl, rfl, rfl, rfl, rfl, rfl, rfl, rfl, rfl⟩

/-- C9 witness: sign_order with a constant signer at a concrete
order. -/
theorem C9_sign_order_frame_witness :
    ∃ msg, build_order_message_data
        { sub_account_id := 2, legs := [],
          signature := { r := "", s := "", v := 0, expiration := 77, nonce := 88, signer := "" },
          time_in_force := none, is_market := none, post_only := none,
          reduce_only := none, builder := none, builder_fee := none } [] = .ok msg ∧
      ({ sub_account_id := 2, legs := [],
         signature := { r := "0xr", s := "0xs", v := 27, expiration := 77, nonce := 88,
                        signer := "0xg" },
         time_in_force := none, is_market := none, post_only := none,
         reduce_only := none, builder := none, builder_fee := none } : Order).signature.r =
        ((fun _ _ _ => { r := "0xr", s := "0xs", v := 27, signer := "0xg" } :
          List (String × Val) → List (String × List TypedField) → List (String × Val) →
            SigResult) (get_eip712_domain_data GrvtEnv.TESTNET) EIP712_ORDER_MESSAGE_TYPE msg).r ∧
      ({ sub_account_id := 2, legs := [],
         signature := { r := "0xr", s := "0xs", v := 27, expiration := 77, nonce := 88,
                        signer := "0xg" },
         time_in_force := none, is_market := none, post_only := none,
         reduce_only := none, builder := none, builder_fee := none } : Order).signature.s =
        ((fun _ _ _ => { r := "0xr", s := "0xs", v := 27, signer := "0xg" } :
          List (String × Val) → List (String × List TypedField) → List (String × Val) →
            SigResult) (get_eip712_domain_data GrvtEnv.TESTNET) EIP712_ORDER_MESSAGE_TYPE msg).s ∧
      ({ sub_account_id := 2, legs := [],
         signature := { r := "0xr", s := "0xs", v := 27, expiration := 77, nonce := 88,
                        signer := "0xg" },
         time_in_force := none, is_market := none, post_only := none,
         reduce_only := none, builder := none, builder_fee := none } : Order).signature.v =
        ((fun _ _ _ => { r := "0xr", s := "0xs", v := 27, signer := "0xg" } :
          List (String × Val) → List (String × List TypedField) → List (String × Val) →
            SigResult) (get_eip712_domain_data GrvtEnv.TESTNET) EIP712_ORDER_MESSAGE_TYPE msg).v ∧
      ({ sub_account_id := 2, legs := [],
         signature := { r := "0xr", s := "0xs", v := 27, expiration := 77, nonce := 88,
                        signer := "0xg" },
         time_in_force := none, is_market := none, post_only := none,
         reduce_only := none, builder := none, builder_fee := none } : Order).signature.signer =
        ((fun _ _ _ => { r := "0xr", s := "0xs", v := 27, signer := "0xg" } :
          List (String × Val) → List (String × List TypedField) → List (String × Val) →
            SigResult) (get_eip712_domain_data GrvtEnv.TESTNET) EIP712_ORDER_MESSAGE_TYPE
          msg).signer ∧
      ({ sub_account_id := 2, legs := [],
         signature := { r := "0xr", s := "0xs", v := 27, expiration := 77, nonce := 88,
                        signer := "0xg" },
         time_in_force := none, is_market := none, post_only := none,
         reduce_only := none, builder := none, builder_fee := none } : Order).signature.expiration =
        ({ r := "", s := "", v := 0, expiration := 77, nonce := 88,
           signer := "" } : SignatureRec).expiration ∧
      ({ sub_account_id := 2, legs := [],
         signature := { r := "0xr", s := "0xs", v := 27, expiration := 77, nonce := 88,
                        signer := "0xg" },
         time_in_force := none, is_market := none, post_only := none,
         reduce_only := none, builder := none, builder_fee := none } : Order).signature.nonce =
        ({ r := "", s := "", v := 0, expiration := 77, nonce := 88,
           signer := "" } : SignatureRec).nonce ∧
      (2 : ℤ) = 2 ∧
      ([] : List OrderLeg) = [] ∧
      (none : Option String) = none ∧
      (none : Option Bool) = none ∧
      (none : Option Bool) = none ∧
      (none : Option Bool) = none ∧
      (none : Option String) = none ∧
      (none : Option String) = none := by
  have h := C9_sign_order_frame
    (fun _ _ _ => { r := "0xr", s := "0xs", v := 27, signer := "0xg" })
    GrvtEnv.TESTNET
    { sub_account_id := 2, legs := [],
      signature := { r := "", s := "", v := 0, expiration := 77, nonce := 88, signer := "" },
      time_in_force := none, is_market := none, post_only := none,
      reduce_only := none, builder := none, builder_fee := none }
    []
    { sub_account_id := 2, legs := [],
      signature := { r := "0xr", s := "0xs", v := 27, expiration := 77, nonce := 88,
                     signer := "0xg" },
      time_in_force := none, is_market := none, post_only := none,
      reduce_only := none, builder := none, builder_fee := none }
    (by decide)
  exact h

/-- C10: absent optional fields default silently: missing time_in_force
becomes GOOD_TILL_TIME (signing value 1), missing is_market, post_only
and reduce_only become false, missing builder becomes the empty string,
and a missing builder_fee defaults to "0.001" (scaled builderFee 10). -/
theorem C10_optional_defaults (order : Order) (instruments : List (String × Instrument))
    (L : List (List (String × LegVal)))
    (hlegs : buildLegs instruments order.legs = .ok L)
    (h1 : order.time_in_force = none) (h2 : order.is_market = none)
    (h3 : order.post_only = none) (h4 : order.reduce_only = none)
    (h5 : order.builder = none) (h6 : order.builder_fee = none) :
    build_order_message_data order instruments = .ok
      [("subAccountID", .i order.sub_account_id),
       ("isMarket", .b false),
       ("timeInForce", .i 1),
       ("postOnly", .b false),
       ("reduceOnly", .b false),
       ("legs", .arr L),
       ("builder", .s ""),
       ("builderFee", .i 10),
       ("nonce", .i order.signature.nonce),
       ("expiration", .i order.signature.expiration)] := by
  have htif : TimeInForce.ofString (order.time_in_force.getD "GOOD_TILL_TIME") =
      some .GOOD_TILL_TIME := by rw [h1]; decide
  have hfee : parseDecimal (order.builder_fee.getD "0.001") = some ⟨1, 1000⟩ := by
    rw [h6]; decide
  have hmsg := build_order_message_data_eq order instruments L .GOOD_TILL_TIME ⟨1, 1000⟩
    hlegs htif hfee
  rw [hmsg, h2, h3, h4, h5]
  rfl

/-- C10 witness: an all-defaults order. -/
theorem C10_optional_defaults_witness :
    build_order_message_data
        { sub_account_id := 3, legs := [],
          signature := { r := "", s := "", v := 0, expiration := 55, nonce := 66, signer := "" },
          time_in_force := none, is_market := none, post_only := none,
          reduce_only := none, builder := none, builder_fee := none } [] = .ok
      [("subAccountID", .i 3),
       ("isMarket", .b false),
       ("timeInForce", .i 1),
       ("postOnly", .b false),
       ("reduceOnly", .b false),
       ("legs", .arr []),
       ("builder", .s ""),
       ("builderFee", .i 10),
       ("nonce", .i 66),
       ("expiration", .i 55)] :=
  C10_optional_defaults
    { sub_account_id := 3, legs := [],
      signature := { r := "", s := "", v := 0, expiration := 55, nonce := 66, signer := "" },
      time_in_force := none, is_market := none, post_only := none,
      reduce_only := none, builder := none, builder_fee := none }
    [] [] rfl rfl rfl rfl rfl rfl rfl
